import Mathlib

/-!
Verification of the budgetTracker backend's transaction/balance engine.

The definitions below are a shallow embedding of the Python source under
`backend/app` (routers/transaction.py, routers/account.py, models.py):
SQLAlchemy rows become Lean structures, the database session becomes an
explicit `DB` value threaded through each operation, and every FastAPI
handler becomes a total function returning `Except ApiError ...`.

Commit semantics: the session dependency (`database.get_db`) never commits;
a handler that raises an `HTTPException` before its final `db.commit()`
leaves the session to be closed uncommitted, which rolls back every pending
mutation.  Accordingly an operation that raises is modelled as returning
`Except.error e` and the caller keeps the original `DB`: the committed
state is unchanged.  An operation that reaches `db.commit()` returns
`Except.ok` carrying the new `DB`.

Numeric fields (`amount`, `balance`) are SQL `Float` columns; they are
modelled as `Rat` so the balance algebra is exact.
-/

namespace BudgetTracker

/-- `TransactionType` enum from models.py: income | expense | transfer. -/
inductive TxType where
  | income
  | expense
  | transfer
deriving DecidableEq, Repr

/-- A row of the `accounts` table (models.py, class Account). -/
structure Account where
  id : Nat
  user_id : Nat
  name : String
  atype : String
  balance : Rat
  currency : String
  is_active : Bool
deriving DecidableEq, Repr

/-- A row of the `categories` table (models.py, class Category). -/
structure Category where
  id : Nat
  user_id : Nat
  name : String
  is_active : Bool
deriving DecidableEq, Repr

/-- A row of the `sub_categories` table (models.py, class SubCategory). -/
structure SubCategory where
  id : Nat
  user_id : Nat
  category_id : Nat
  name : String
  is_active : Bool
deriving DecidableEq, Repr

/-- A row of the `transactions` table (models.py, class Transaction).
`category_id`, `sub_category_id` and `to_account_id` are nullable columns,
modelled as `Option Nat`; `date` is opaque for the balance logic. -/
structure Transaction where
  id : Nat
  user_id : Nat
  amount : Rat
  type : TxType
  date : Nat
  notes : String
  category_id : Option Nat
  sub_category_id : Option Nat
  from_account_id : Nat
  to_account_id : Option Nat
  is_active : Bool
deriving DecidableEq, Repr

/-- The store visible to the handlers: the four tables plus the
autoincrement counters the database supplies for new primary keys. -/
structure DB where
  accounts : List Account
  categories : List Category
  sub_categories : List SubCategory
  transactions : List Transaction
  next_account_id : Nat
  next_category_id : Nat
  next_sub_category_id : Nat
  next_tx_id : Nat
deriving DecidableEq, Repr

/-- Error taxonomy of the handlers: `HTTPException(404)`,
`HTTPException(400)` and an uncaught Python exception (HTTP 500). -/
inductive ApiError where
  | notFound (msg : String)
  | validationError (msg : String)
  | serverError (msg : String)
deriving DecidableEq, Repr

/-- `select(Account).where(Account.id == aid, Account.user_id == uid,
Account.is_active == True)` followed by `.scalars().first()`. -/
def findActiveAccount (db : DB) (uid aid : Nat) : Option Account :=
  db.accounts.find? (fun a => a.id == aid && a.user_id == uid && a.is_active)

/-- Owner-and-active filtered transaction lookup, as in the routers. -/
def findActiveTx (db : DB) (uid txid : Nat) : Option Transaction :=
  db.transactions.find? (fun t => t.id == txid && t.user_id == uid && t.is_active)

/-- Mutating `account.balance` on a fetched ORM row: every stored row with
this primary key receives the delta (the session's identity map makes the
fetched object and the stored row one and the same). -/
def applyDelta (db : DB) (aid : Nat) (d : Rat) : DB :=
  { db with accounts :=
      db.accounts.map (fun a => if a.id == aid then { a with balance := a.balance + d } else a) }

/-- Setting `transaction.is_active = False` on a fetched row. -/
def retireTx (db : DB) (txid : Nat) : DB :=
  { db with transactions :=
      db.transactions.map (fun t => if t.id == txid then { t with is_active := false } else t) }

/-- The request body `TransactionCreate` (schemas.py 164-175): `amount`
(`Field(..., gt=0)`), `type`, `date`, optional `notes`, and the required
integer ids `category_id`, `sub_category_id` and `account_id`.  The
schema defines NO `from_account_id` or `to_account_id` field; a pydantic
model raises `AttributeError` when an undefined attribute is read. -/
structure TransactionCreate where
  amount : Rat
  type : TxType
  date : Nat
  notes : Option String
  category_id : Nat
  sub_category_id : Nat
  account_id : Nat
deriving DecidableEq, Repr

/-- `add_transaction` (routers/transaction.py 22-160).  Its first
statement queries
`select(Account).where(Account.id == transaction_data.from_account_id, ...)`
(line 30), but `TransactionCreate` carries no `from_account_id`
attribute, so every call raises `AttributeError` before any validation
or write; FastAPI reports the uncaught exception as HTTP 500 and the
session rolls back, committing nothing.  The account lookup, the
type-specific validations and the balance writes further down the
handler are all unreachable. -/
def add_transaction (_db : DB) (_uid : Nat) (_td : TransactionCreate) :
    Except ApiError (DB × Nat) :=
  .error (.serverError
    "AttributeError: TransactionCreate object has no attribute from_account_id")

/-- The request body `TransactionUpdate` (schemas.py 177-184): the same
legacy single-`account_id` shape with every field optional; again there
is no `from_account_id` or `to_account_id` field. -/
structure TransactionUpdate where
  amount : Option Rat
  type : Option TxType
  date : Option Nat
  notes : Option String
  category_id : Option Nat
  sub_category_id : Option Nat
  account_id : Option Nat
deriving DecidableEq, Repr

/-- `edit_transaction` (routers/transaction.py 197-380).  It first
fetches the active owned transaction and returns 404 when the lookup is
empty (lines 205-217); the very next statement is
`if transaction_data.from_account_id:` (line 219), an attribute
`TransactionUpdate` does not define, so every call that finds the
transaction raises `AttributeError` (HTTP 500) right there — before any
merged-field validation, reversal, retirement or insert — and the
session rolls back unchanged. -/
def edit_transaction (db : DB) (uid txid : Nat) (_tu : TransactionUpdate) :
    Except ApiError DB :=
  match findActiveTx db uid txid with
  | none => .error (.notFound "Transaction not found")
  | some _ => .error (.serverError
      "AttributeError: TransactionUpdate object has no attribute from_account_id")

/-- `delete_transaction` (routers/transaction.py 383-439): fetch the
active owned transaction (404 when absent), fetch its from-account, then
dispatch the balance reversal on `str(transaction.type) == "income"`,
`== "expense"`, `== "transfer"` (lines 413-417).  `TransactionType`
derives from `(str, enum.Enum)` and the ORM column is
`Enum(TransactionType)`, so the loaded value is an enum member whose
`str(...)` is `"TransactionType.INCOME"` (resp. `EXPENSE`, `TRANSFER`) —
none of the three comparisons is ever true, and no balance is written.
The handler then sets `transaction.is_active = False` and commits: a
found transaction is always retired, with no reversal for any account. -/
def delete_transaction (db : DB) (uid txid : Nat) : Except ApiError DB :=
  match findActiveTx db uid txid with
  | none => .error (.notFound "Transaction not found")
  | some _ => .ok (retireTx db txid)

/-- The body of `AccountCreate` (schemas.py): name, type, balance
(`Field(default=0.0, ge=0)`), currency. -/
structure AccountCreate where
  name : String
  atype : String
  balance : Rat
  currency : String
deriving DecidableEq, Repr

/-- The body of `AccountUpdate` (schemas.py): every field optional;
a supplied balance is nonnegative (`Field(None, ge=0)`). -/
structure AccountUpdate where
  name : Option String
  atype : Option String
  balance : Option Rat
  currency : Option String
deriving DecidableEq, Repr

/-- Python truthiness of an optional string: `None` and `""` are falsy. -/
def truthyStr : Option String → Bool
  | none => false
  | some s => s != ""

/-- `add_account` (routers/account.py): reject a duplicate active name for
this user (case-insensitive), otherwise insert the row (the schema
validator and `Account.__init__` both lowercase the name). -/
def add_account (db : DB) (uid : Nat) (ac : AccountCreate) :
    Except ApiError (DB × Nat) :=
  match db.accounts.find? (fun a =>
      a.name == ac.name.toLower && a.user_id == uid && a.is_active) with
  | some _ => .error (.validationError "Account name already exists")
  | none =>
    let aid := db.next_account_id
    .ok ({ db with
            accounts := db.accounts ++
              [{ id := aid, user_id := uid, name := ac.name.toLower,
                 atype := ac.atype, balance := ac.balance,
                 currency := ac.currency, is_active := true }],
            next_account_id := db.next_account_id + 1 }, aid)

/-- `edit_account` (routers/account.py): find the active owned account,
reject a conflicting new name, then overwrite each supplied field —
including `balance`, which a caller may set to any value directly. -/
def edit_account (db : DB) (uid aid : Nat) (au : AccountUpdate) :
    Except ApiError DB :=
  match findActiveAccount db uid aid with
  | none => .error (.notFound "Account not found")
  | some account =>
    if truthyStr au.name ∧ (au.name.getD "").toLower ≠ account.name ∧
        (db.accounts.find? (fun a =>
          a.name == (au.name.getD "").toLower && a.user_id == uid &&
          a.is_active && a.id != aid)).isSome then
      .error (.validationError "Account name already exists")
    else
      .ok { db with accounts :=
              db.accounts.map (fun a =>
                if a.id == aid then
                  { a with
                    name := if au.name.isSome then (au.name.getD "").toLower else a.name,
                    atype := au.atype.getD a.atype,
                    balance := au.balance.getD a.balance,
                    currency := au.currency.getD a.currency }
                else a) }

/-- `delete_account` (routers/account.py): find the active owned account,
then query for active transactions via `Transaction.account_id`.
`models.py` defines no `account_id` attribute on `Transaction` — the
column was renamed to `from_account_id` (migration
6727535fe0da_rename_account_id_to_from_account_id) — so evaluating
`Transaction.account_id` raises `AttributeError` before the query runs and
the handler can never reach the soft-delete. -/
def delete_account (db : DB) (uid aid : Nat) : Except ApiError DB :=
  match findActiveAccount db uid aid with
  | none => .error (.notFound "Account not found")
  | some _ =>
    .error (.serverError
      "AttributeError: type object Transaction has no attribute account_id")

/-- One parsed spreadsheet row of the import file, after pandas: each field
holds `str(cell)` for the correspondingly named column (`notes` holds the
value after the `pd.notna` guard, i.e. already `""` for a missing cell). -/
structure ImportRow where
  date : String
  account : String
  entryType : String
  category : String
  subCategory : String
  amount : String
  toAccount : String
  notes : String
deriving DecidableEq, Repr

/-- Session state threaded through the import loop: the store plus the
counters and the accumulated `(row, message)` validation errors. -/
structure ImportState where
  db : DB
  imported : Nat
  createdAccounts : Nat
  createdCategories : Nat
  createdSubcategories : Nat
  errors : List (Nat × String)
deriving Repr

/-- Import get-or-create of an account by lowercased name (balance 0, the
other columns take their defaults).  Returns the store, the account id and
whether a row was created. -/
def getOrCreateAccount (db : DB) (uid : Nat) (nm : String) : DB × Nat × Bool :=
  match db.accounts.find? (fun a => a.name == nm && a.user_id == uid && a.is_active) with
  | some a => (db, a.id, false)
  | none =>
    let aid := db.next_account_id
    ({ db with
        accounts := db.accounts ++
          [{ id := aid, user_id := uid, name := nm, atype := "bank",
             balance := 0, currency := "USD", is_active := true }],
        next_account_id := aid + 1 }, aid, true)

/-- Import get-or-create of a category by lowercased name. -/
def getOrCreateCategory (db : DB) (uid : Nat) (nm : String) : DB × Nat × Bool :=
  match db.categories.find? (fun c => c.name == nm && c.user_id == uid && c.is_active) with
  | some c => (db, c.id, false)
  | none =>
    let cid := db.next_category_id
    ({ db with
        categories := db.categories ++
          [{ id := cid, user_id := uid, name := nm, is_active := true }],
        next_category_id := cid + 1 }, cid, true)

/-- Import get-or-create of a sub-category by lowercased name within the
resolved category. -/
def getOrCreateSubCategory (db : DB) (uid cid : Nat) (nm : String) : DB × Nat × Bool :=
  match db.sub_categories.find? (fun s =>
      s.name == nm && s.category_id == cid && s.user_id == uid && s.is_active) with
  | some s => (db, s.id, false)
  | none =>
    let sid := db.next_sub_category_id
    ({ db with
        sub_categories := db.sub_categories ++
          [{ id := sid, user_id := uid, category_id := cid, name := nm,
             is_active := true }],
        next_sub_category_id := sid + 1 }, sid, true)

/-- Record a `(row_number, message)` validation error and move to the next
row (`continue` in the source keeps whatever the row already added to the
session; the final rollback discards it). -/
def importErr (st : ImportState) (rowNum : Nat) (msg : String) : ImportState :=
  { st with errors := st.errors ++ [(rowNum, msg)] }

/-- Python's `str.lower()` (ASCII), as a structurally recursive map so
that concrete imports evaluate inside the kernel. -/
def strLower (s : String) : String := ⟨s.data.map Char.toLower⟩

/-- Python's `str.strip()`: drop whitespace from both ends (structurally
recursive over the character list). -/
def strTrim (s : String) : String :=
  ⟨((s.data.dropWhile Char.isWhitespace).reverse.dropWhile Char.isWhitespace).reverse⟩

/-- The transfer branch of one import row (the body of the source's
`if entry_type == 'transfer'` block), entered after the shared
validations with the from-account already resolved into `st1`. -/
def importRowTransfer (uid rowNum : Nat) (amount : Rat) (date_obj : Nat)
    (r : ImportRow) (fromId : Nat) (st1 : ImportState) : ImportState :=
  let category_val := strTrim r.category
  let subcategory_val := strTrim r.subCategory
  let to_account_name := strTrim r.toAccount
  if category_val != "" && strLower category_val != "nan" then
    importErr st1 rowNum "Transfer transactions must have empty category field"
  else if subcategory_val != "" && strLower subcategory_val != "nan" then
    importErr st1 rowNum "Transfer transactions must have empty subcategory field"
  else if to_account_name == "" || strLower to_account_name == "nan" then
    importErr st1 rowNum "Transfer transactions must specify a To Account"
  else
    let res2 := getOrCreateAccount st1.db uid (strLower to_account_name)
    let toId := res2.2.1
    let st2 := { st1 with
      db := res2.1
      createdAccounts := st1.createdAccounts + (if res2.2.2 then 1 else 0) }
    let txid := st2.db.next_tx_id
    let db3 : DB :=
      { st2.db with
        transactions := st2.db.transactions ++
          [{ id := txid, user_id := uid, amount := amount,
             type := .transfer, date := date_obj, notes := r.notes,
             category_id := none, sub_category_id := none,
             from_account_id := fromId, to_account_id := some toId,
             is_active := true }],
        next_tx_id := txid + 1 }
    let db4 := applyDelta (applyDelta db3 fromId (-amount)) toId amount
    { st2 with db := db4, imported := st2.imported + 1 }

/-- The income/expense branch of one import row (the source's `else`
block of the entry-type dispatch), entered after the shared validations
with the from-account already resolved into `st1`. -/
def importRowIncomeExpense (uid rowNum : Nat) (entry_type : String) (amount : Rat)
    (date_obj : Nat) (r : ImportRow) (fromId : Nat) (st1 : ImportState) : ImportState :=
  let category_name := strTrim r.category
  let subcategory_name := strTrim r.subCategory
  if category_name == "" || strLower category_name == "nan" then
    importErr st1 rowNum
      (entry_type.capitalize ++ " transactions must have a category")
  else if subcategory_name == "" || strLower subcategory_name == "nan" then
    importErr st1 rowNum
      (entry_type.capitalize ++ " transactions must have a subcategory")
  else
    let res2 := getOrCreateCategory st1.db uid (strLower category_name)
    let catId := res2.2.1
    let st2 := { st1 with
      db := res2.1
      createdCategories := st1.createdCategories + (if res2.2.2 then 1 else 0) }
    let res3 := getOrCreateSubCategory st2.db uid catId (strLower subcategory_name)
    let subId := res3.2.1
    let st3 := { st2 with
      db := res3.1
      createdSubcategories :=
        st2.createdSubcategories + (if res3.2.2 then 1 else 0) }
    let txid := st3.db.next_tx_id
    let db3 : DB :=
      { st3.db with
        transactions := st3.db.transactions ++
          [{ id := txid, user_id := uid, amount := amount,
             type := if entry_type == "income" then .income else .expense,
             date := date_obj, notes := r.notes,
             category_id := some catId, sub_category_id := some subId,
             from_account_id := fromId, to_account_id := none,
             is_active := true }],
        next_tx_id := txid + 1 }
    let db4 :=
      if entry_type == "income" then applyDelta db3 fromId amount
      else applyDelta db3 fromId (-amount)
    { st3 with db := db4, imported := st3.imported + 1 }

/-- Processing of one import row (the body of the `for index, row in
df.iterrows()` loop in `import_transactions`), for row index `idx`
(reported as line `idx + 2`).  Date and amount parsing are the external
`datetime.strptime`/`float` collaborators, passed in as `dateParse` and
`amountParse` (`none` = parse failure). -/
def importRowStep (dateParse : String → Option Nat) (amountParse : String → Option Rat)
    (uid idx : Nat) (st : ImportState) (r : ImportRow) : ImportState :=
  let rowNum := idx + 2
  let entry_type := strTrim (strLower r.entryType)
  if !(entry_type == "income" || entry_type == "expense" || entry_type == "transfer") then
    importErr st rowNum ("Invalid entry type: " ++ entry_type ++
      ". Must be income, expense, or transfer")
  else
    let date_str := strTrim r.date
    if date_str == "" then importErr st rowNum "Date is required"
    else
      match dateParse date_str with
      | none => importErr st rowNum
          ("Invalid date format: " ++ date_str ++ ". Expected dd/mm/yy")
      | some date_obj =>
        let amount_str := strTrim r.amount
        if amount_str == "" then importErr st rowNum "Amount is required"
        else
          match amountParse amount_str with
          | none => importErr st rowNum ("Invalid amount format: " ++ amount_str)
          | some amount =>
            if amount ≤ 0 then importErr st rowNum "Amount must be greater than 0"
            else
              let account_name := strLower (strTrim r.account)
              if account_name == "" then importErr st rowNum "Account name is required"
              else
                let res := getOrCreateAccount st.db uid account_name
                let fromId := res.2.1
                let st1 := { st with
                  db := res.1
                  createdAccounts := st.createdAccounts + (if res.2.2 then 1 else 0) }
                if entry_type == "transfer" then
                  importRowTransfer uid rowNum amount date_obj r fromId st1
                else
                  importRowIncomeExpense uid rowNum entry_type amount date_obj r fromId st1

/-- The import loop over the remaining rows, starting at row index `idx`. -/
def importRows (dateParse : String → Option Nat) (amountParse : String → Option Rat)
    (uid : Nat) : Nat → ImportState → List ImportRow → ImportState
  | _, st, [] => st
  | idx, st, r :: rest =>
    importRows dateParse amountParse uid (idx + 1)
      (importRowStep dateParse amountParse uid idx st r) rest

/-- Derived observation: the transfer-specific checks of one import row
(`none` = the checks pass). -/
def rowCheckTransfer (r : ImportRow) : Option String :=
  let category_val := strTrim r.category
  let subcategory_val := strTrim r.subCategory
  let to_account_name := strTrim r.toAccount
  if category_val != "" && strLower category_val != "nan" then
    some "Transfer transactions must have empty category field"
  else if subcategory_val != "" && strLower subcategory_val != "nan" then
    some "Transfer transactions must have empty subcategory field"
  else if to_account_name == "" || strLower to_account_name == "nan" then
    some "Transfer transactions must specify a To Account"
  else none

/-- Derived observation: the income/expense-specific checks of one
imported row (`none` = the checks pass). -/
def rowCheckIncomeExpense (entry_type : String) (r : ImportRow) : Option String :=
  let category_name := strTrim r.category
  let subcategory_name := strTrim r.subCategory
  if category_name == "" || strLower category_name == "nan" then
    some (entry_type.capitalize ++ " transactions must have a category")
  else if subcategory_name == "" || strLower subcategory_name == "nan" then
    some (entry_type.capitalize ++ " transactions must have a subcategory")
  else none

/-- Derived observation: whether one import row fails validation, and
with which message.  Every per-row check in `importRowStep` looks only at
the row's text and the two parsers, never at the session state (the
get-or-create calls cannot fail), so failure is a function of the row
alone; `none` means the row imports. -/
def rowCheck (dateParse : String → Option Nat) (amountParse : String → Option Rat)
    (r : ImportRow) : Option String :=
  let entry_type := strTrim (strLower r.entryType)
  if !(entry_type == "income" || entry_type == "expense" || entry_type == "transfer") then
    some ("Invalid entry type: " ++ entry_type ++
      ". Must be income, expense, or transfer")
  else
    let date_str := strTrim r.date
    if date_str == "" then some "Date is required"
    else
      match dateParse date_str with
      | none => some ("Invalid date format: " ++ date_str ++ ". Expected dd/mm/yy")
      | some _ =>
        let amount_str := strTrim r.amount
        if amount_str == "" then some "Amount is required"
        else
          match amountParse amount_str with
          | none => some ("Invalid amount format: " ++ amount_str)
          | some amount =>
            if amount ≤ 0 then some "Amount must be greater than 0"
            else
              let account_name := strLower (strTrim r.account)
              if account_name == "" then some "Account name is required"
              else if entry_type == "transfer" then rowCheckTransfer r
              else rowCheckIncomeExpense entry_type r

/-- The `(row_number, message)` entries a row's check contributes. -/
def errEntry (rowNum : Nat) : Option String → List (Nat × String)
  | some m => [(rowNum, m)]
  | none => []

/-- The full error report of an import: one `(row_number, message)` entry
per failing row, in file order, where row `idx` of the data is line
`idx + 2` of the file. -/
def importErrors (dateParse : String → Option Nat) (amountParse : String → Option Rat) :
    Nat → List ImportRow → List (Nat × String)
  | _, [] => []
  | idx, r :: rest =>
    errEntry (idx + 2) (rowCheck dateParse amountParse r) ++
      importErrors dateParse amountParse (idx + 1) rest

/-- The response payload of `import_transactions`. -/
structure ImportResult where
  success : Bool
  errors : List (Nat × String)
  importedCount : Nat
  createdAccounts : Nat
  createdCategories : Nat
  createdSubcategories : Nat
deriving DecidableEq, Repr

/-- `import_transactions` (routers/transaction.py), after file plumbing:
run every row, then either roll the whole session back (any validation
error: the response reports the errors and all-zero counts and the store
is unchanged) or commit and report the counts. -/
def bulkImport (dateParse : String → Option Nat) (amountParse : String → Option Rat)
    (db : DB) (uid : Nat) (rows : List ImportRow) : DB × ImportResult :=
  let st := importRows dateParse amountParse uid 0
    { db := db, imported := 0, createdAccounts := 0, createdCategories := 0,
      createdSubcategories := 0, errors := [] } rows
  if st.errors.isEmpty then
    (st.db,
      { success := true, errors := [], importedCount := st.imported,
        createdAccounts := st.createdAccounts,
        createdCategories := st.createdCategories,
        createdSubcategories := st.createdSubcategories })
  else
    (db,
      { success := false, errors := st.errors, importedCount := 0,
        createdAccounts := 0, createdCategories := 0, createdSubcategories := 0 })

/-! ## Derived observations -/

/-- Balance of the account row with primary key `aid` (0 if absent). -/
def balanceOf (db : DB) (aid : Nat) : Rat :=
  match db.accounts.find? (fun a => a.id == aid) with
  | some a => a.balance
  | none => 0

/-- The store a client observes once the session closes (`get_db`): a
handler that commits returns the new store, a handler that raises leaves
the uncommitted session to roll back, keeping the original store. -/
def commitState (db : DB) (r : Except ApiError DB) : DB :=
  match r with
  | .ok db' => db'
  | .error _ => db

/-! ## Lemmas about the store primitives -/

/-- Retiring a transaction row rewrites no account row, hence no
balance. -/
theorem balanceOf_retireTx (db : DB) (txid x : Nat) :
    balanceOf (retireTx db txid) x = balanceOf db x := rfl

def walletW : Account :=
  { id := 1, user_id := 1, name := "wallet", atype := "bank", balance := 0,
    currency := "USD", is_active := true }

def bankAccW : Account :=
  { id := 2, user_id := 1, name := "bank", atype := "bank", balance := 0,
    currency := "USD", is_active := true }

def dbW : DB :=
  { accounts := [walletW, bankAccW], categories := [], sub_categories := [],
    transactions := [], next_account_id := 3, next_category_id := 1,
    next_sub_category_id := 1, next_tx_id := 1 }

/-- A well-formed income request body under the real schema shape. -/
def tdIncomeW : TransactionCreate :=
  { amount := 50, type := .income, date := 0, notes := none,
    category_id := 1, sub_category_id := 1, account_id := 1 }

/-- A well-formed transfer request body under the real schema shape. -/
def tdTransferW : TransactionCreate :=
  { amount := 30, type := .transfer, date := 0, notes := none,
    category_id := 1, sub_category_id := 1, account_id := 1 }

/-- **C5** (code bug): no successful Add of an income or expense
transaction exists, so the claimed post-conditions
`X.balance == pre.balance + a` / `- a` are never established.  Every
`add_transaction` call raises `AttributeError` reading the undefined
`transaction_data.from_account_id` as its first action (transaction.py
line 30) and returns HTTP 500; the rolled-back store keeps every
balance unchanged. -/
theorem addTransaction_income_expense_effect_never
    (db : DB) (uid : Nat) (td : TransactionCreate)
    (_hty : td.type = TxType.income ∨ td.type = TxType.expense) :
    add_transaction db uid td = Except.error (ApiError.serverError
      "AttributeError: TransactionCreate object has no attribute from_account_id") ∧
    ∀ x, balanceOf (commitState db (Except.map Prod.fst (add_transaction db uid td))) x
      = balanceOf db x :=
  ⟨rfl, fun _ => rfl⟩

/-- Witness for C5: a well-formed income Add on a store with two active
accounts still yields the AttributeError 500. -/
theorem addTransaction_income_expense_effect_never_witness :
    (tdIncomeW.type = TxType.income ∨ tdIncomeW.type = TxType.expense) ∧
    add_transaction dbW 1 tdIncomeW = Except.error (ApiError.serverError
      "AttributeError: TransactionCreate object has no attribute from_account_id") :=
  ⟨Or.inl rfl,
    (addTransaction_income_expense_effect_never dbW 1 tdIncomeW (Or.inl rfl)).1⟩

/-- **C6** (code bug): no successful Add of a transfer exists, so the
claimed `X - a` / `Y + a` post-state is never produced and no amount is
ever moved.  `add_transaction` raises `AttributeError` on the undefined
`from_account_id` field before any work (transaction.py line 30); the
committed store is exactly the pre-state — a degenerate conservation with
no transfer behind it.  The real `TransactionCreate` cannot even express
a from/to account pair. -/
theorem addTransaction_transfer_effect_never
    (db : DB) (uid : Nat) (td : TransactionCreate)
    (_hty : td.type = TxType.transfer) :
    (add_transaction db uid td).isOk = false ∧
    commitState db (Except.map Prod.fst (add_transaction db uid td)) = db :=
  ⟨rfl, rfl⟩

/-- Witness for C6: a well-formed transfer Add on a store with two
active accounts fails and leaves the store untouched. -/
theorem addTransaction_transfer_effect_never_witness :
    tdTransferW.type = TxType.transfer ∧
    (add_transaction dbW 1 tdTransferW).isOk = false ∧
    commitState dbW (Except.map Prod.fst (add_transaction dbW 1 tdTransferW)) = dbW :=
  ⟨rfl, addTransaction_transfer_effect_never dbW 1 tdTransferW rfl⟩

/-- **C9** (code bug): the claimed VALIDATION_ERROR (HTTP 400) for a
transfer with `from_account == to_account` is unreachable.  The check at
transaction.py 68-73 sits far below the handler's first statement, which
already raises `AttributeError` on the undefined
`transaction_data.from_account_id` (line 30) — and the checked-in
`TransactionCreate` cannot even express distinct from/to accounts.  So
every Add, the same-account transfer included, returns the
AttributeError 500, never the 400; the no-state-change half holds only
because the session always rolls back. -/
theorem addTransaction_same_account_check_unreachable :
    ∀ (db : DB) (uid : Nat) (td : TransactionCreate),
      add_transaction db uid td = Except.error (ApiError.serverError
        "AttributeError: TransactionCreate object has no attribute from_account_id") ∧
      commitState db (Except.map Prod.fst (add_transaction db uid td)) = db :=
  fun _ _ _ => ⟨rfl, rfl⟩

/-- **C4** (code bug): the claimed Add-then-Delete round trip can never
happen and its Delete half restores nothing.  (i) No Add ever succeeds:
`add_transaction` raises `AttributeError` on the undefined
`transaction_data.from_account_id` as its first action (transaction.py
line 30), so the premise "successful Add of tx" is unsatisfiable.
(ii) Independently, Delete never changes any balance: its reversal
dispatch on `str(transaction.type)` (lines 413-417) matches no branch
for an enum member, so a Delete of a transaction that did affect a
balance (e.g. one created by import) leaves the effect in place instead
of reversing it. -/
theorem addThenDelete_never_restores :
    (∀ (db : DB) (uid : Nat) (td : TransactionCreate),
      (add_transaction db uid td).isOk = false) ∧
    (∀ (db : DB) (uid txid x : Nat),
      balanceOf (commitState db (delete_transaction db uid txid)) x = balanceOf db x) := by
  refine ⟨fun db uid td => rfl, fun db uid txid x => ?_⟩
  unfold delete_transaction
  cases findActiveTx db uid txid with
  | none => rfl
  | some tx => exact balanceOf_retireTx db txid x

/-- C8 (code bug): `delete_account` can never soft-delete an account.
After finding the active owned account it evaluates
`Transaction.account_id`, an attribute `models.py` does not define (the
column is `from_account_id` since migration 6727535fe0da), so every call
ends in 404 or the AttributeError 500 — in particular an account with zero
active transactions, which the claim says must be soft-deleted, stays
active.  `dbW`'s account 1 is exactly such an input. -/
theorem deleteAccount_always_fails :
    (∀ db uid aid, (delete_account db uid aid).isOk = false) ∧
    delete_account dbW 1 1 = Except.error (ApiError.serverError
      "AttributeError: type object Transaction has no attribute account_id") := by
  constructor
  · intro db uid aid
    unfold delete_account
    cases h : findActiveAccount db uid aid <;> rfl
  · rfl

/-! ## C10 fixtures -/

def acctXW : Account :=
  { id := 1, user_id := 1, name := "x", atype := "bank", balance := -10,
    currency := "USD", is_active := true }

def acctYW : Account :=
  { id := 2, user_id := 1, name := "y", atype := "bank", balance := 10,
    currency := "USD", is_active := true }

def txTransferRowW : Transaction :=
  { id := 1, user_id := 1, amount := 10, type := .transfer, date := 0, notes := "",
    category_id := none, sub_category_id := none, from_account_id := 1,
    to_account_id := some 2, is_active := true }

def dbEditW : DB :=
  { accounts := [acctXW, acctYW], categories := [], sub_categories := [],
    transactions := [txTransferRowW], next_account_id := 3, next_category_id := 1,
    next_sub_category_id := 1, next_tx_id := 2 }

/-- An update that supplies a new type (expense) and nothing else. -/
def tuToExpenseW : TransactionUpdate :=
  { amount := none, type := some .expense, date := none, notes := none,
    category_id := none, sub_category_id := none, account_id := none }

/-- **C2** (code bug): an Edit can never return the claimed NOT_FOUND or
VALIDATION_ERROR for a failed merged-field validation, because the
merged-field validation is unreachable: every Edit call either returns
404 on the transaction lookup or raises `AttributeError` (HTTP 500) at
`transaction_data.from_account_id` (transaction.py line 219) before
reading a single supplied field.  The no-mutation half holds only
degenerately — the session always rolls back.  Concretely, editing the
valid ACTIVE transfer of `dbEditW` to an expense yields the 500, not a
validation verdict. -/
theorem editTransaction_crashes_before_validation :
    (∀ (db : DB) (uid txid : Nat) (tu : TransactionUpdate),
      edit_transaction db uid txid tu =
          Except.error (ApiError.notFound "Transaction not found") ∨
        edit_transaction db uid txid tu = Except.error (ApiError.serverError
          "AttributeError: TransactionUpdate object has no attribute from_account_id")) ∧
    (∀ (db : DB) (uid txid : Nat) (tu : TransactionUpdate),
      commitState db (edit_transaction db uid txid tu) = db) ∧
    edit_transaction dbEditW 1 1 tuToExpenseW = Except.error (ApiError.serverError
      "AttributeError: TransactionUpdate object has no attribute from_account_id") := by
  refine ⟨fun db uid txid tu => ?_, fun db uid txid tu => ?_, rfl⟩
  · unfold edit_transaction
    cases findActiveTx db uid txid with
    | none => exact Or.inl rfl
    | some tx => exact Or.inr rfl
  · unfold edit_transaction
    cases findActiveTx db uid txid with
    | none => rfl
    | some tx => rfl

/-- **C3** (code bug): the claimed re-validation of the merged view
never runs.  Whenever the Edit finds the ACTIVE owned transaction — the
only situation in which merged validation could apply — the handler
raises `AttributeError` reading the undefined
`transaction_data.from_account_id` (transaction.py line 219) before
looking at any merged field, so the outcome is HTTP 500 for every update
body, never the claimed VALIDATION_ERROR, and no new transaction is
created: the session rolls back. -/
theorem editTransaction_never_revalidates
    (db : DB) (uid txid : Nat) (tu : TransactionUpdate) (tx : Transaction)
    (htx : findActiveTx db uid txid = some tx) :
    edit_transaction db uid txid tu = Except.error (ApiError.serverError
        "AttributeError: TransactionUpdate object has no attribute from_account_id") ∧
    commitState db (edit_transaction db uid txid tu) = db := by
  unfold edit_transaction
  rw [htx]
  exact ⟨rfl, rfl⟩

/-- Witness for C3: `dbEditW` holds an ACTIVE owned transfer, and
editing it to an expense yields the AttributeError 500 with the store
unchanged. -/
theorem editTransaction_never_revalidates_witness :
    findActiveTx dbEditW 1 1 = some txTransferRowW ∧
    edit_transaction dbEditW 1 1 tuToExpenseW = Except.error (ApiError.serverError
        "AttributeError: TransactionUpdate object has no attribute from_account_id") :=
  ⟨rfl,
    (editTransaction_never_revalidates dbEditW 1 1 tuToExpenseW txTransferRowW rfl).1⟩

/-! ## Import loop accounting -/

set_option maxHeartbeats 2000000

theorem getOrCreateAccount_accounts (db : DB) (uid : Nat) (nm : String) :
    (getOrCreateAccount db uid nm).1.accounts.length =
      db.accounts.length + (if (getOrCreateAccount db uid nm).2.2 then 1 else 0) := by
  unfold getOrCreateAccount
  split <;> simp

theorem getOrCreateAccount_categories (db : DB) (uid : Nat) (nm : String) :
    (getOrCreateAccount db uid nm).1.categories = db.categories := by
  unfold getOrCreateAccount
  split <;> simp

theorem getOrCreateAccount_sub_categories (db : DB) (uid : Nat) (nm : String) :
    (getOrCreateAccount db uid nm).1.sub_categories = db.sub_categories := by
  unfold getOrCreateAccount
  split <;> simp

theorem getOrCreateAccount_transactions (db : DB) (uid : Nat) (nm : String) :
    (getOrCreateAccount db uid nm).1.transactions = db.transactions := by
  unfold getOrCreateAccount
  split <;> simp

theorem getOrCreateCategory_categories (db : DB) (uid : Nat) (nm : String) :
    (getOrCreateCategory db uid nm).1.categories.length =
      db.categories.length + (if (getOrCreateCategory db uid nm).2.2 then 1 else 0) := by
  unfold getOrCreateCategory
  split <;> simp

theorem getOrCreateCategory_accounts (db : DB) (uid : Nat) (nm : String) :
    (getOrCreateCategory db uid nm).1.accounts = db.accounts := by
  unfold getOrCreateCategory
  split <;> simp

theorem getOrCreateCategory_sub_categories (db : DB) (uid : Nat) (nm : String) :
    (getOrCreateCategory db uid nm).1.sub_categories = db.sub_categories := by
  unfold getOrCreateCategory
  split <;> simp

theorem getOrCreateCategory_transactions (db : DB) (uid : Nat) (nm : String) :
    (getOrCreateCategory db uid nm).1.transactions = db.transactions := by
  unfold getOrCreateCategory
  split <;> simp

theorem getOrCreateSubCategory_sub_categories (db : DB) (uid cid : Nat) (nm : String) :
    (getOrCreateSubCategory db uid cid nm).1.sub_categories.length =
      db.sub_categories.length +
        (if (getOrCreateSubCategory db uid cid nm).2.2 then 1 else 0) := by
  unfold getOrCreateSubCategory
  split <;> simp

theorem getOrCreateSubCategory_accounts (db : DB) (uid cid : Nat) (nm : String) :
    (getOrCreateSubCategory db uid cid nm).1.accounts = db.accounts := by
  unfold getOrCreateSubCategory
  split <;> simp

theorem getOrCreateSubCategory_categories (db : DB) (uid cid : Nat) (nm : String) :
    (getOrCreateSubCategory db uid cid nm).1.categories = db.categories := by
  unfold getOrCreateSubCategory
  split <;> simp

theorem getOrCreateSubCategory_transactions (db : DB) (uid cid : Nat) (nm : String) :
    (getOrCreateSubCategory db uid cid nm).1.transactions = db.transactions := by
  unfold getOrCreateSubCategory
  split <;> simp

/-- Arithmetic composition of two accounting equations of the shape
`new_size + old_counter = old_size + new_counter`. -/
theorem importCount_trans (x2 n2 x1 n1 x0 n0 : Nat)
    (h1 : x2 + n1 = x1 + n2) (h2 : x1 + n0 = x0 + n1) : x2 + n0 = x0 + n2 := by
  omega

theorem importRowTransfer_transactions (uid rowNum : Nat) (amount : Rat)
    (date_obj : Nat) (r : ImportRow) (fromId : Nat) (st1 : ImportState) :
    (importRowTransfer uid rowNum amount date_obj r fromId st1).db.transactions.length
        + st1.imported
      = st1.db.transactions.length
        + (importRowTransfer uid rowNum amount date_obj r fromId st1).imported := by
  unfold importRowTransfer
  dsimp only
  split
  all_goals try split
  all_goals try split
  all_goals
    simp only [importErr, applyDelta, List.length_append, List.length_cons,
      List.length_nil, getOrCreateAccount_transactions]
  all_goals omega

theorem importRowTransfer_accounts (uid rowNum : Nat) (amount : Rat)
    (date_obj : Nat) (r : ImportRow) (fromId : Nat) (st1 : ImportState) :
    (importRowTransfer uid rowNum amount date_obj r fromId st1).db.accounts.length
        + st1.createdAccounts
      = st1.db.accounts.length
        + (importRowTransfer uid rowNum amount date_obj r fromId st1).createdAccounts := by
  unfold importRowTransfer
  dsimp only
  split
  all_goals try split
  all_goals try split
  all_goals
    simp only [importErr, applyDelta, List.length_map, getOrCreateAccount_accounts]
  all_goals omega

theorem importRowTransfer_categories (uid rowNum : Nat) (amount : Rat)
    (date_obj : Nat) (r : ImportRow) (fromId : Nat) (st1 : ImportState) :
    (importRowTransfer uid rowNum amount date_obj r fromId st1).db.categories.length
        + st1.createdCategories
      = st1.db.categories.length
        + (importRowTransfer uid rowNum amount date_obj r fromId st1).createdCategories := by
  unfold importRowTransfer
  dsimp only
  split
  all_goals try split
  all_goals try split
  all_goals
    simp only [importErr, applyDelta, getOrCreateAccount_categories]
  all_goals omega

theorem importRowTransfer_sub_categories (uid rowNum : Nat) (amount : Rat)
    (date_obj : Nat) (r : ImportRow) (fromId : Nat) (st1 : ImportState) :
    (importRowTransfer uid rowNum amount date_obj r fromId st1).db.sub_categories.length
        + st1.createdSubcategories
      = st1.db.sub_categories.length
        + (importRowTransfer uid rowNum amount date_obj r
            fromId st1).createdSubcategories := by
  unfold importRowTransfer
  dsimp only
  split
  all_goals try split
  all_goals try split
  all_goals
    simp only [importErr, applyDelta, getOrCreateAccount_sub_categories]
  all_goals omega

theorem importRowIncomeExpense_transactions (uid rowNum : Nat) (entry_type : String)
    (amount : Rat) (date_obj : Nat) (r : ImportRow) (fromId : Nat) (st1 : ImportState) :
    (importRowIncomeExpense uid rowNum entry_type amount date_obj r
          fromId st1).db.transactions.length
        + st1.imported
      = st1.db.transactions.length
        + (importRowIncomeExpense uid rowNum entry_type amount date_obj r
            fromId st1).imported := by
  unfold importRowIncomeExpense
  dsimp only
  split
  all_goals try split
  all_goals try split
  all_goals try split
  all_goals
    simp only [importErr, applyDelta, List.length_append, List.length_cons,
      List.length_nil, getOrCreateCategory_transactions,
      getOrCreateSubCategory_transactions]
  all_goals omega

theorem importRowIncomeExpense_accounts (uid rowNum : Nat) (entry_type : String)
    (amount : Rat) (date_obj : Nat) (r : ImportRow) (fromId : Nat) (st1 : ImportState) :
    (importRowIncomeExpense uid rowNum entry_type amount date_obj r
          fromId st1).db.accounts.length
        + st1.createdAccounts
      = st1.db.accounts.length
        + (importRowIncomeExpense uid rowNum entry_type amount date_obj r
            fromId st1).createdAccounts := by
  unfold importRowIncomeExpense
  dsimp only
  split
  all_goals try split
  all_goals try split
  all_goals try split
  all_goals
    simp only [importErr, applyDelta, List.length_map, getOrCreateCategory_accounts,
      getOrCreateSubCategory_accounts]
  all_goals omega

theorem importRowIncomeExpense_categories (uid rowNum : Nat) (entry_type : String)
    (amount : Rat) (date_obj : Nat) (r : ImportRow) (fromId : Nat) (st1 : ImportState) :
    (importRowIncomeExpense uid rowNum entry_type amount date_obj r
          fromId st1).db.categories.length
        + st1.createdCategories
      = st1.db.categories.length
        + (importRowIncomeExpense uid rowNum entry_type amount date_obj r
            fromId st1).createdCategories := by
  unfold importRowIncomeExpense
  dsimp only
  split
  all_goals try split
  all_goals try split
  all_goals try split
  all_goals
    simp only [importErr, applyDelta, getOrCreateCategory_categories,
      getOrCreateSubCategory_categories]
  all_goals try simp_all
  all_goals omega

theorem importRowIncomeExpense_sub_categories (uid rowNum : Nat) (entry_type : String)
    (amount : Rat) (date_obj : Nat) (r : ImportRow) (fromId : Nat) (st1 : ImportState) :
    (importRowIncomeExpense uid rowNum entry_type amount date_obj r
          fromId st1).db.sub_categories.length
        + st1.createdSubcategories
      = st1.db.sub_categories.length
        + (importRowIncomeExpense uid rowNum entry_type amount date_obj r
            fromId st1).createdSubcategories := by
  unfold importRowIncomeExpense
  dsimp only
  split
  all_goals try split
  all_goals try split
  all_goals try split
  all_goals
    simp only [importErr, applyDelta, getOrCreateCategory_sub_categories,
      getOrCreateSubCategory_sub_categories]
  all_goals try simp_all
  all_goals omega

theorem importRowStep_transactions (dateParse : String → Option Nat)
    (amountParse : String → Option Rat) (uid idx : Nat)
    (st : ImportState) (r : ImportRow) :
    (importRowStep dateParse amountParse uid idx st r).db.transactions.length +
        st.imported =
      st.db.transactions.length +
        (importRowStep dateParse amountParse uid idx st r).imported := by
  unfold importRowStep
  dsimp only
  split
  all_goals try split
  all_goals try split
  all_goals try split
  all_goals try split
  all_goals try split
  all_goals try split
  all_goals try split
  all_goals
    first
      | (simp only [importErr]; done)
      | exact importCount_trans _ _ _ _ _ _
          (importRowTransfer_transactions _ _ _ _ _ _ _)
          (by simp only [getOrCreateAccount_transactions])
      | exact importCount_trans _ _ _ _ _ _
          (importRowIncomeExpense_transactions _ _ _ _ _ _ _ _)
          (by simp only [getOrCreateAccount_transactions])

theorem importRowStep_accounts (dateParse : String → Option Nat)
    (amountParse : String → Option Rat) (uid idx : Nat)
    (st : ImportState) (r : ImportRow) :
    (importRowStep dateParse amountParse uid idx st r).db.accounts.length +
        st.createdAccounts =
      st.db.accounts.length +
        (importRowStep dateParse amountParse uid idx st r).createdAccounts := by
  unfold importRowStep
  dsimp only
  split
  all_goals try split
  all_goals try split
  all_goals try split
  all_goals try split
  all_goals try split
  all_goals try split
  all_goals try split
  all_goals
    first
      | (simp only [importErr]; done)
      | exact importCount_trans _ _ _ _ _ _
          (importRowTransfer_accounts _ _ _ _ _ _ _)
          (by simp only [getOrCreateAccount_accounts]; omega)
      | exact importCount_trans _ _ _ _ _ _
          (importRowIncomeExpense_accounts _ _ _ _ _ _ _ _)
          (by simp only [getOrCreateAccount_accounts]; omega)

theorem importRowStep_categories (dateParse : String → Option Nat)
    (amountParse : String → Option Rat) (uid idx : Nat)
    (st : ImportState) (r : ImportRow) :
    (importRowStep dateParse amountParse uid idx st r).db.categories.length +
        st.createdCategories =
      st.db.categories.length +
        (importRowStep dateParse amountParse uid idx st r).createdCategories := by
  unfold importRowStep
  dsimp only
  split
  all_goals try split
  all_goals try split
  all_goals try split
  all_goals try split
  all_goals try split
  all_goals try split
  all_goals try split
  all_goals
    first
      | (simp only [importErr]; done)
      | exact importCount_trans _ _ _ _ _ _
          (importRowTransfer_categories _ _ _ _ _ _ _)
          (by simp only [getOrCreateAccount_categories])
      | exact importCount_trans _ _ _ _ _ _
          (importRowIncomeExpense_categories _ _ _ _ _ _ _ _)
          (by simp only [getOrCreateAccount_categories])

theorem importRowStep_sub_categories (dateParse : String → Option Nat)
    (amountParse : String → Option Rat) (uid idx : Nat)
    (st : ImportState) (r : ImportRow) :
    (importRowStep dateParse amountParse uid idx st r).db.sub_categories.length +
        st.createdSubcategories =
      st.db.sub_categories.length +
        (importRowStep dateParse amountParse uid idx st r).createdSubcategories := by
  unfold importRowStep
  dsimp only
  split
  all_goals try split
  all_goals try split
  all_goals try split
  all_goals try split
  all_goals try split
  all_goals try split
  all_goals try split
  all_goals
    first
      | (simp only [importErr]; done)
      | exact importCount_trans _ _ _ _ _ _
          (importRowTransfer_sub_categories _ _ _ _ _ _ _)
          (by simp only [getOrCreateAccount_sub_categories])
      | exact importCount_trans _ _ _ _ _ _
          (importRowIncomeExpense_sub_categories _ _ _ _ _ _ _ _)
          (by simp only [getOrCreateAccount_sub_categories])

theorem importRowTransfer_errors (uid rowNum : Nat) (amount : Rat)
    (date_obj : Nat) (r : ImportRow) (fromId : Nat) (st1 : ImportState) :
    (importRowTransfer uid rowNum amount date_obj r fromId st1).errors
      = st1.errors ++ errEntry rowNum (rowCheckTransfer r) := by
  unfold importRowTransfer
  dsimp only
  split
  all_goals try split
  all_goals try split
  all_goals simp [*, rowCheckTransfer, errEntry, importErr]

theorem importRowIncomeExpense_errors (uid rowNum : Nat) (entry_type : String)
    (amount : Rat) (date_obj : Nat) (r : ImportRow) (fromId : Nat) (st1 : ImportState) :
    (importRowIncomeExpense uid rowNum entry_type amount date_obj r fromId st1).errors
      = st1.errors ++ errEntry rowNum (rowCheckIncomeExpense entry_type r) := by
  unfold importRowIncomeExpense
  dsimp only
  split
  all_goals try split
  all_goals try split
  all_goals try split
  all_goals simp [*, rowCheckIncomeExpense, errEntry, importErr]

theorem importRowStep_errors (dateParse : String → Option Nat)
    (amountParse : String → Option Rat) (uid idx : Nat)
    (st : ImportState) (r : ImportRow) :
    (importRowStep dateParse amountParse uid idx st r).errors
      = st.errors ++ errEntry (idx + 2) (rowCheck dateParse amountParse r) := by
  unfold importRowStep
  dsimp only
  split
  all_goals try split
  all_goals try split
  all_goals try split
  all_goals try split
  all_goals try split
  all_goals try split
  all_goals try split
  all_goals try (simp [*, rowCheck, errEntry, importErr]; done)
  all_goals try (rw [importRowTransfer_errors]; simp [*, rowCheck]; done)
  all_goals try (rw [importRowIncomeExpense_errors]; simp [*, rowCheck]; done)
  all_goals (rw [importRowIncomeExpense_errors]; simp [*, rowCheck]; rw [if_neg (by intro hc; simp_all)])

theorem importRows_transactions (dp : String → Option Nat) (ap : String → Option Rat)
    (uid : Nat) (rows : List ImportRow) :
    ∀ (idx : Nat) (st : ImportState),
      (importRows dp ap uid idx st rows).db.transactions.length + st.imported
        = st.db.transactions.length + (importRows dp ap uid idx st rows).imported := by
  induction rows with
  | nil => intro idx st; rfl
  | cons r rest ih =>
    intro idx st
    have hs := importRowStep_transactions dp ap uid idx st r
    have ht := ih (idx + 1) (importRowStep dp ap uid idx st r)
    simp only [importRows]
    omega

theorem importRows_accounts (dp : String → Option Nat) (ap : String → Option Rat)
    (uid : Nat) (rows : List ImportRow) :
    ∀ (idx : Nat) (st : ImportState),
      (importRows dp ap uid idx st rows).db.accounts.length + st.createdAccounts
        = st.db.accounts.length + (importRows dp ap uid idx st rows).createdAccounts := by
  induction rows with
  | nil => intro idx st; rfl
  | cons r rest ih =>
    intro idx st
    have hs := importRowStep_accounts dp ap uid idx st r
    have ht := ih (idx + 1) (importRowStep dp ap uid idx st r)
    simp only [importRows]
    omega

theorem importRows_categories (dp : String → Option Nat) (ap : String → Option Rat)
    (uid : Nat) (rows : List ImportRow) :
    ∀ (idx : Nat) (st : ImportState),
      (importRows dp ap uid idx st rows).db.categories.length + st.createdCategories
        = st.db.categories.length + (importRows dp ap uid idx st rows).createdCategories := by
  induction rows with
  | nil => intro idx st; rfl
  | cons r rest ih =>
    intro idx st
    have hs := importRowStep_categories dp ap uid idx st r
    have ht := ih (idx + 1) (importRowStep dp ap uid idx st r)
    simp only [importRows]
    omega

theorem importRows_sub_categories (dp : String → Option Nat) (ap : String → Option Rat)
    (uid : Nat) (rows : List ImportRow) :
    ∀ (idx : Nat) (st : ImportState),
      (importRows dp ap uid idx st rows).db.sub_categories.length + st.createdSubcategories
        = st.db.sub_categories.length
          + (importRows dp ap uid idx st rows).createdSubcategories := by
  induction rows with
  | nil => intro idx st; rfl
  | cons r rest ih =>
    intro idx st
    have hs := importRowStep_sub_categories dp ap uid idx st r
    have ht := ih (idx + 1) (importRowStep dp ap uid idx st r)
    simp only [importRows]
    omega

theorem importRows_errors (dp : String → Option Nat) (ap : String → Option Rat)
    (uid : Nat) (rows : List ImportRow) :
    ∀ (idx : Nat) (st : ImportState),
      (importRows dp ap uid idx st rows).errors
        = st.errors ++ importErrors dp ap idx rows := by
  induction rows with
  | nil => intro idx st; simp [importRows, importErrors]
  | cons r rest ih =>
    intro idx st
    simp only [importRows, importErrors]
    rw [ih, importRowStep_errors, List.append_assoc]

/-- **C7**: for every bulk import file, the reported errors are exactly
one `(row_number, message)` entry per failing row, where data row `idx`
is reported as line `idx + 2`; if any row fails the whole import is
rolled back (the committed store is unchanged, `success` is false and
every count is zero); and on full success the response reports the
number of transactions imported and of accounts, categories and
sub-categories newly created (the committed store grew by exactly those
amounts). -/
theorem bulkImport_all_or_nothing (dp : String → Option Nat)
    (ap : String → Option Rat) (db : DB) (uid : Nat) (rows : List ImportRow) :
    ((bulkImport dp ap db uid rows).2.errors = importErrors dp ap 0 rows) ∧
    ((bulkImport dp ap db uid rows).2.errors ≠ [] →
      (bulkImport dp ap db uid rows).1 = db ∧
      (bulkImport dp ap db uid rows).2.success = false ∧
      (bulkImport dp ap db uid rows).2.importedCount = 0 ∧
      (bulkImport dp ap db uid rows).2.createdAccounts = 0 ∧
      (bulkImport dp ap db uid rows).2.createdCategories = 0 ∧
      (bulkImport dp ap db uid rows).2.createdSubcategories = 0) ∧
    ((bulkImport dp ap db uid rows).2.errors = [] →
      (bulkImport dp ap db uid rows).2.success = true ∧
      (bulkImport dp ap db uid rows).1.transactions.length
        = db.transactions.length + (bulkImport dp ap db uid rows).2.importedCount ∧
      (bulkImport dp ap db uid rows).1.accounts.length
        = db.accounts.length + (bulkImport dp ap db uid rows).2.createdAccounts ∧
      (bulkImport dp ap db uid rows).1.categories.length
        = db.categories.length + (bulkImport dp ap db uid rows).2.createdCategories ∧
      (bulkImport dp ap db uid rows).1.sub_categories.length
        = db.sub_categories.length
          + (bulkImport dp ap db uid rows).2.createdSubcategories) := by
  have he := importRows_errors dp ap uid rows 0
    { db := db, imported := 0, createdAccounts := 0, createdCategories := 0,
      createdSubcategories := 0, errors := [] }
  have h1 := importRows_transactions dp ap uid rows 0
    { db := db, imported := 0, createdAccounts := 0, createdCategories := 0,
      createdSubcategories := 0, errors := [] }
  have h2 := importRows_accounts dp ap uid rows 0
    { db := db, imported := 0, createdAccounts := 0, createdCategories := 0,
      createdSubcategories := 0, errors := [] }
  have h3 := importRows_categories dp ap uid rows 0
    { db := db, imported := 0, createdAccounts := 0, createdCategories := 0,
      createdSubcategories := 0, errors := [] }
  have h4 := importRows_sub_categories dp ap uid rows 0
    { db := db, imported := 0, createdAccounts := 0, createdCategories := 0,
      createdSubcategories := 0, errors := [] }
  simp only [List.nil_append] at he
  simp at h1 h2 h3 h4
  unfold bulkImport
  dsimp only
  cases hE : (importRows dp ap uid 0
      { db := db, imported := 0, createdAccounts := 0, createdCategories := 0,
        createdSubcategories := 0, errors := [] } rows).errors with
  | nil =>
    rw [hE] at he
    simp only [List.isEmpty_nil, reduceIte]
    refine ⟨he, fun hne => absurd rfl hne, fun _ => ⟨by trivial, ?_, ?_, ?_, ?_⟩⟩
    all_goals omega
  | cons p es =>
    rw [hE] at he
    simp only [List.isEmpty_cons, reduceIte]
    exact ⟨he, fun _ => ⟨rfl, rfl, rfl, rfl, rfl, rfl⟩,
      fun hnil => List.noConfusion hnil⟩

/-- Witness date parser: accepts exactly "01/01/25". -/
def dpW : String → Option Nat := fun s => if s == "01/01/25" then some 20089 else none

/-- Witness amount parser: accepts exactly "50". -/
def apW : String → Option Rat := fun s => if s == "50" then some 50 else none

/-- A valid income row for the import witness. -/
def rowGoodW : ImportRow :=
  { date := "01/01/25", account := "Wallet", entryType := "Income",
    category := "Food", subCategory := "Lunch", amount := "50",
    toAccount := "", notes := "" }

/-- An invalid row (unknown entry type "loan") for the import witness. -/
def rowBadW : ImportRow :=
  { date := "01/01/25", account := "Wallet", entryType := "loan",
    category := "Food", subCategory := "Lunch", amount := "50",
    toAccount := "", notes := "" }

/-- Witness for `bulkImport_all_or_nothing`: a file with one valid and
one invalid row commits nothing and reports failure, while the valid row
alone imports one transaction. -/
theorem bulkImport_all_or_nothing_witness :
    (bulkImport dpW apW dbW 1 [rowGoodW, rowBadW]).2.errors ≠ [] ∧
    (bulkImport dpW apW dbW 1 [rowGoodW, rowBadW]).1 = dbW ∧
    (bulkImport dpW apW dbW 1 [rowGoodW, rowBadW]).2.success = false ∧
    (bulkImport dpW apW dbW 1 [rowGoodW, rowBadW]).2.importedCount = 0 ∧
    (bulkImport dpW apW dbW 1 [rowGoodW]).2.errors = [] ∧
    (bulkImport dpW apW dbW 1 [rowGoodW]).2.success = true ∧
    (bulkImport dpW apW dbW 1 [rowGoodW]).1.transactions.length
      = dbW.transactions.length + (bulkImport dpW apW dbW 1 [rowGoodW]).2.importedCount := by
  have hbad := bulkImport_all_or_nothing dpW apW dbW 1 [rowGoodW, rowBadW]
  have hgood := bulkImport_all_or_nothing dpW apW dbW 1 [rowGoodW]
  refine ⟨by decide, (hbad.2.1 (by decide)).1, (hbad.2.1 (by decide)).2.1,
    (hbad.2.1 (by decide)).2.2.1, by decide, (hgood.2.2 (by decide)).1,
    (hgood.2.2 (by decide)).2.1⟩


/-! ## The balance invariant (C1) -/

/-- The signed effect the spec's ledger rule assigns to transaction `t`
on the account with primary key `aid`: income `+amount` on the source,
expense `-amount` on the source, transfer `-amount` on the source and
`+amount` on the destination.  This definition follows the claim's
wording and is compared against the handlers' balance writes. -/
def specEffect (t : Transaction) (aid : Nat) : Rat :=
  match t.type with
  | .income => if aid = t.from_account_id then t.amount else 0
  | .expense => if aid = t.from_account_id then -t.amount else 0
  | .transfer =>
    (if aid = t.from_account_id then -t.amount else 0) +
      (if some aid = t.to_account_id then t.amount else 0)

/-- The ledger recomputation: the sum of the spec effects on account
`aid` of all currently-active transactions. -/
def ledgerSum (db : DB) (aid : Nat) : Rat :=
  ((db.transactions.filter (fun t => t.is_active)).map (fun t => specEffect t aid)).sum

/-- The claimed invariant: every stored account's balance equals the
ledger recomputation for its primary key. -/
def BalancedDB (db : DB) : Prop :=
  ∀ a ∈ db.accounts, a.balance = ledgerSum db a.id

/-- One call of a core operation, as dispatched by the routers.  The
import's external parsers travel with the operation. -/
inductive Op where
  | addTx (uid : Nat) (td : TransactionCreate)
  | editTx (uid txid : Nat) (tu : TransactionUpdate)
  | deleteTx (uid txid : Nat)
  | addAccount (uid : Nat) (ac : AccountCreate)
  | editAccount (uid aid : Nat) (au : AccountUpdate)
  | deleteAccount (uid aid : Nat)
  | doImport (dateParse : String → Option Nat) (amountParse : String → Option Rat)
      (uid : Nat) (rows : List ImportRow)

/-- The committed store after one operation: a handler that raises leaves
the committed store unchanged (`get_db` closes the uncommitted session,
rolling it back). -/
def applyOp (db : DB) : Op → DB
  | .addTx uid td => commitState db (Except.map Prod.fst (add_transaction db uid td))
  | .editTx uid txid tu => commitState db (edit_transaction db uid txid tu)
  | .deleteTx uid txid => commitState db (delete_transaction db uid txid)
  | .addAccount uid ac => commitState db (Except.map Prod.fst (add_account db uid ac))
  | .editAccount uid aid au => commitState db (edit_account db uid aid au)
  | .deleteAccount uid aid => commitState db (delete_account db uid aid)
  | .doImport dp ap uid rows => (bulkImport dp ap db uid rows).1

/-- C1 fixture: the empty store. -/
def db0W : DB :=
  { accounts := [], categories := [], sub_categories := [], transactions := [],
    next_account_id := 1, next_category_id := 1, next_sub_category_id := 1,
    next_tx_id := 1 }

/-- C1 fixture: the committed store after importing the single valid
income row `rowGoodW` (amount 50) into the empty store.  The import
get-or-creates account 1, category 1 and sub-category 1, inserts the
ACTIVE income transaction 1 of amount 50 and writes balance 50. -/
def db1W : DB := applyOp db0W (Op.doImport dpW apW 1 [rowGoodW])

/-- The account row of `db1W`. -/
def acctImpW : Account :=
  { id := 1, user_id := 1, name := "wallet", atype := "bank", balance := 50,
    currency := "USD", is_active := true }

/-- The category row of `db1W`. -/
def catImpW : Category :=
  { id := 1, user_id := 1, name := "food", is_active := true }

/-- The sub-category row of `db1W`. -/
def subImpW : SubCategory :=
  { id := 1, user_id := 1, category_id := 1, name := "lunch", is_active := true }

/-- The transaction row of `db1W`. -/
def txImpW : Transaction :=
  { id := 1, user_id := 1, amount := 50, type := .income, date := 20089, notes := "",
    category_id := some 1, sub_category_id := some 1, from_account_id := 1,
    to_account_id := none, is_active := true }

/-- `db1W` written out as a literal store. -/
def dbLitW : DB :=
  { accounts := [acctImpW], categories := [catImpW], sub_categories := [subImpW],
    transactions := [txImpW], next_account_id := 2, next_category_id := 2,
    next_sub_category_id := 2, next_tx_id := 2 }

theorem db1W_eq : db1W = dbLitW := by
  have hacc : ({ acctImpW with balance := 0 + 50 } : Account) = acctImpW := by
    have h50 : (0 : Rat) + 50 = 50 := by norm_num
    simp [acctImpW, Account.mk.injEq, h50]
  have h : db1W = { dbLitW with accounts := [{ acctImpW with balance := 0 + 50 }] } := rfl
  rw [h, hacc]
  rfl

/-- **C1** (code bug): the balance invariant is not maintained by the
core operations.  Importing one valid income row of 50 into the empty
store yields a balanced store `db1W` (account 1 carries balance 50 and
one ACTIVE income transaction of 50).  Deleting that transaction — a
plain Delete of an ACTIVE owned transaction whose account is present and
active — succeeds and retires the row but reverses no balance, because
the dispatch `str(transaction.type) == "income"` never matches an enum
member (transaction.py 413-417).  The committed store keeps balance 50
on account 1 while the sum of signed effects of its active transactions
is 0: the invariant is violated.  (Add and Edit cannot disturb the
invariant only because they can never commit: both raise
`AttributeError` on the undefined `from_account_id` request field.) -/
theorem balance_invariant_broken_by_delete :
    BalancedDB db1W ∧
    delete_transaction db1W 1 1 = Except.ok (retireTx db1W 1) ∧
    balanceOf (applyOp db1W (Op.deleteTx 1 1)) 1 = 50 ∧
    ledgerSum (applyOp db1W (Op.deleteTx 1 1)) 1 = 0 ∧
    ¬ BalancedDB (applyOp db1W (Op.deleteTx 1 1)) := by
  rw [db1W_eq]
  refine ⟨?_, by rfl, by decide, by decide, ?_⟩
  · intro a ha
    simp only [dbLitW, List.mem_singleton] at ha
    subst ha
    simp [acctImpW, dbLitW, txImpW, ledgerSum, specEffect]
  · intro h
    have hb := h acctImpW (by decide)
    rw [show ledgerSum (applyOp dbLitW (Op.deleteTx 1 1)) acctImpW.id = 0 from by decide]
      at hb
    norm_num [acctImpW] at hb

end BudgetTracker
